import Mathlib

/-
  Shallow embedding of the DeviceID fingerprint generator (src/cdn/gid.js).

  The generator samples a battery of host-environment signals ("collectors"),
  concatenates them into one canonical string, and hashes it with SHA-256
  (via the host digest primitive `crypto.subtle.digest`).

  Host behaviour is modelled through an `Env` record that fixes, for one call,
  the outcome of each collector body (the code inside its own try/catch) and
  the availability of the digest primitive.  JS exceptions are modelled with
  `Except Unit`; a settled JS promise is likewise an `Except Unit` value
  (rejected or fulfilled).
-/

/-- Models a JS `try { return body } catch (e) { return '' }` wrapper: every
collector in gid.js has exactly this shape around its body. -/
def catchEmpty : Except Unit String → String
  | .ok s => s
  | .error _ => ""

/-- Models the JS expression `s || ''` on a string `s`: the empty string is
falsy, every other string is truthy (gid.js line 385, `audioHash || ''`). -/
def jsOrEmpty (s : String) : String :=
  if s = "" then "" else s

/-- Models the JS string coercion of a (native) Promise object, as triggered by
`'name:' + promise` in gid.js lines 374/378/379: `String(p)` for a Promise `p`
with the default `Object.prototype.toString` yields `"[object Promise]"`,
independently of the promise's state or value. -/
def promiseToString (_p : Except Unit String) : String :=
  "[object Promise]"

/-- The possible behaviours of the thunk `fn` passed to `safe` (gid.js 23-31):
it may throw synchronously, return a plain value (possibly `null`/`undefined`,
modelled as `none`), or return a promise that settles to a value (possibly
nullish) or rejects. -/
inductive SafeArg where
  | thrown : SafeArg
  | value : Option String → SafeArg
  | promise : Except Unit (Option String) → SafeArg

/-- gid.js lines 23-31:
```
function safe(fn, fallback = '') {
    try {
        const v = fn();
        if (v instanceof Promise) return v.then(r => r ?? fallback).catch(() => fallback);
        return Promise.resolve(v ?? fallback);
    } catch (e) {
        return Promise.resolve(fallback);
    }
}
```
The returned (settled) promise is the `Except Unit String` result. -/
def safe (fn : SafeArg) (fallback : String) : Except Unit String :=
  match fn with
  | .thrown => .ok fallback
  | .value v => .ok (v.getD fallback)
  | .promise (.ok v) => .ok (v.getD fallback)
  | .promise (.error _) => .ok fallback

/-- Models JS `Array.prototype.join(sep)`: the empty array joins to `""`,
otherwise `sep` is inserted between consecutive elements. -/
def joinSep (sep : String) : List String → String
  | [] => ""
  | [x] => x
  | x :: y :: rest => x ++ sep ++ joinSep sep (y :: rest)

/-! ### Font detection (gid.js 146-191)

`detectFonts` appends a measurement `<span>` to the document, measures the
width of a test string under each base font and each `'font', base` pair, and
removes the span before returning.  The width measurement is the host
capability `getBoundingClientRect().width`, modelled as a function from the
font-family set on the span to a width (or a thrown DOM exception).  The
`<span>` creation/append themselves are modelled as always succeeding, so the
span is attached for the whole measurement phase. -/

/-- The font-family strings assigned to `span.style.fontFamily`: either a bare
base font, or the pair corresponding to the source template
`'<font>', <base>`. -/
inductive FontFamily where
  | base : String → FontFamily
  | withFallback : (font : String) → (fallbackBase : String) → FontFamily
deriving DecidableEq

/-- gid.js line 148. -/
def baseFonts : List String := ["monospace", "serif", "sans-serif"]

/-- gid.js lines 149-152. -/
def testFonts : List String :=
  ["Arial", "Times New Roman", "Courier New", "Georgia", "Palatino", "Segoe UI",
   "Roboto", "Noto Sans", "Helvetica", "Impact", "Comic Sans MS", "Verdana",
   "Tahoma", "Lucida Grande"]

/-- gid.js lines 167-171: measure the default width for each base font, in
order; any throw propagates to the surrounding catch. -/
def measureDefaults (measure : FontFamily → Except Unit Nat) :
    List String → Except Unit (List (String × Nat))
  | [] => .ok []
  | base :: rest => do
    let w ← measure (.base base)
    let tail ← measureDefaults measure rest
    pure ((base, w) :: tail)

/-- gid.js lines 174-182: for one test font, walk the base fonts in order and
report `true` as soon as one measured width differs from that base's default
width (the source's `break`). -/
def checkFont (measure : FontFamily → Except Unit Nat) (font : String) :
    List (String × Nat) → Except Unit Bool
  | [] => .ok false
  | (base, dw) :: rest => do
    let w ← measure (.withFallback font base)
    if w ≠ dw then pure true else checkFont measure font rest

/-- gid.js lines 173-184: build the `font:{0,1}` marker for every test font. -/
def detectAll (measure : FontFamily → Except Unit Nat)
    (defaults : List (String × Nat)) : List String → Except Unit (List String)
  | [] => .ok []
  | font :: rest => do
    let found ← checkFont measure font defaults
    let tail ← detectAll measure defaults rest
    pure ((font ++ ":" ++ (if found then "1" else "0")) :: tail)

/-- The body of `detectFonts` between `body.appendChild(span)` and
`span.remove()`: succeeds with the joined marker string, or propagates the
first measurement throw. -/
def detectFontsCore (measure : FontFamily → Except Unit Nat) :
    Except Unit String := do
  let defaults ← measureDefaults measure baseFonts
  let detected ← detectAll measure defaults testFonts
  pure (joinSep "," detected)

/-- gid.js 146-191, return value: on success the detected string (after
`span.remove()`), on any throw the surrounding catch returns `''`. -/
def detectFonts (measure : FontFamily → Except Unit Nat) : String :=
  match detectFontsCore measure with
  | .ok s => s
  | .error _ => ""

/-- Whether the measurement `<span>` is still attached to the document when
`detectFonts` returns.  `span.remove()` (line 186) runs only on the success
path; the catch (lines 188-190) returns without removing the span, so a throw
during measurement leaves the span attached. -/
def detectFontsSpanLeft (measure : FontFamily → Except Unit Nat) : Bool :=
  match detectFontsCore measure with
  | .ok _ => false
  | .error _ => true

/-! ### Digest (gid.js 10-15) -/

/-- The sixteen lowercase hex digit characters, in value order. -/
def hexDigits : List Char :=
  "0123456789abcdef".data

/-- Hex digit character for a value below 16 (out-of-range values are clamped
by the callers' `% 16`, which never fires for bytes of a `Uint8Array`). -/
def hexDigit (n : Nat) : Char :=
  hexDigits.getD n '0'

/-- gid.js line 14, `b.toString(16).padStart(2, '0')` for a byte `b` read from
a `Uint8Array` (hence `b < 256`): two lowercase hex digits. -/
def byteToHex (b : Nat) : String :=
  ⟨[hexDigit (b / 16 % 16), hexDigit (b % 16)]⟩

/-- gid.js line 14: `arr.map(b => b.toString(16).padStart(2, '0')).join('')`. -/
def hexOfBytes (bs : List Nat) : String :=
  joinSep "" (bs.map byteToHex)

/-- gid.js line 11, `new TextEncoder().encode(input)`: the UTF-8 bytes of the
canonical string. -/
def utf8Bytes (s : String) : List Nat :=
  s.toUTF8.toList.map (fun b => b.toNat)

/-- gid.js 10-15 with the host digest primitive supplied explicitly: encode to
UTF-8, digest, render the digest bytes as lowercase hex. -/
def sha256Hex (digest : List Nat → List Nat) (input : String) : String :=
  hexOfBytes (digest (utf8Bytes input))

/-! ### Configuration (gid.js 353-361) -/

/-- The caller-supplied `options` object: each key may be present (overriding
the default) or absent. -/
structure Options where
  fonts : Option Bool := none
  audio : Option Bool := none
  battery : Option Bool := none
  mediaDevices : Option Bool := none
  permissions : Option Bool := none
deriving DecidableEq

/-- The effective configuration after `Object.assign` with the defaults. -/
structure Config where
  fonts : Bool
  audio : Bool
  battery : Bool
  mediaDevices : Bool
  permissions : Bool
deriving DecidableEq

/-- gid.js 355-361:
```
const cfg = Object.assign({
    fonts: true, audio: true, battery: false,
    mediaDevices: true, permissions: true
}, options);
``` -/
def mkConfig (o : Options) : Config where
  fonts := o.fonts.getD true
  audio := o.audio.getD true
  battery := o.battery.getD false
  mediaDevices := o.mediaDevices.getD true
  permissions := o.permissions.getD true

/-! ### The host environment of one `generate()` call -/

/-- Outcome of each collector's body (the code inside its own try/catch) for
one fixed environment, plus the font-width capability and the digest
primitive (`none` = `crypto.subtle.digest` unavailable: awaiting it rejects).
`audioBody` is the body of `getAudioFingerprint` (gid.js 100-141), including
its internal hashing of the rendered samples. -/
structure Env where
  nav : Except Unit String
  screenInfo : Except Unit String
  intl : Except Unit String
  mediaQueries : Except Unit String
  connection : Except Unit String
  plugins : Except Unit String
  canvas : Except Unit String
  webgl : Except Unit String
  audioBody : Except Unit String
  mediaDevices : Except Unit String
  permissionStates : Except Unit String
  battery : Except Unit String
  fontsMeasure : FontFamily → Except Unit Nat
  digest : Option (List Nat → List Nat)

/-- gid.js 284-304: body modelled by `env.nav`, whole-body try/catch. -/
def collectStableNavigator (env : Env) : String := catchEmpty env.nav

/-- gid.js 306-318. -/
def collectStableScreen (env : Env) : String := catchEmpty env.screenInfo

/-- gid.js 320-334. -/
def collectIntl (env : Env) : String := catchEmpty env.intl

/-- gid.js 336-348. -/
def collectMediaQueries (env : Env) : String := catchEmpty env.mediaQueries

/-- gid.js 271-279. -/
def getConnectionInfo (env : Env) : String := catchEmpty env.connection

/-- gid.js 196-212. -/
def getPluginsAndMimes (env : Env) : String := catchEmpty env.plugins

/-- gid.js 36-61. -/
def getCanvasFingerprint (env : Env) : String := catchEmpty env.canvas

/-- gid.js 66-95. -/
def getWebGLFingerprint (env : Env) : String := catchEmpty env.webgl

/-- gid.js 100-141: internal try/catch returns `''` on any failure, so the
promise returned by `getAudioFingerprint` never rejects. -/
def getAudioFingerprint (env : Env) : String := catchEmpty env.audioBody

/-- gid.js 217-228 (`getMediaDeviceInfo`): defined for completeness; `generate`
has no call site for it. -/
def getMediaDeviceInfo (env : Env) : String := catchEmpty env.mediaDevices

/-- gid.js 233-252 (`getPermissionStates`): defined for completeness;
`generate` has no call site for it. -/
def getPermissionStates (env : Env) : String := catchEmpty env.permissionStates

/-- gid.js 257-266 (`getBatteryInfo`): defined for completeness; `generate`
has no call site for it. -/
def getBatteryInfo (env : Env) : String := catchEmpty env.battery

/-! ### generate (gid.js 353-394) -/

/-- The `parts` array as pushed by gid.js 363-389, in source order:
six unconditional direct segments, the fonts segment if `cfg.fonts` (its value
being the string coercion of the promise returned by `safe`, since line 374
computes `'fonts:' + safe(() => detectFonts(), '')`), the canvas and webgl
segments (same coercion, lines 378-379), and the audio segment if `cfg.audio`
(lines 382-389, where the resolved audio hash is awaited and serialized). -/
def canonicalParts (env : Env) (o : Options) : List String :=
  let cfg := mkConfig o
  ["nav:" ++ collectStableNavigator env,
   "screen:" ++ collectStableScreen env,
   "intl:" ++ collectIntl env,
   "mediaQueries:" ++ collectMediaQueries env,
   "connection:" ++ getConnectionInfo env,
   "plugins:" ++ getPluginsAndMimes env]
  ++ (if cfg.fonts then
        ["fonts:" ++ promiseToString (safe (.value (some (detectFonts env.fontsMeasure))) "")]
      else [])
  ++ ["canvas:" ++ promiseToString (safe (.value (some (getCanvasFingerprint env))) ""),
      "webgl:" ++ promiseToString (safe (.value (some (getWebGLFingerprint env))) "")]
  ++ (if cfg.audio then
        ["audio:" ++ jsOrEmpty (getAudioFingerprint env)]
      else [])

/-- gid.js line 392: `const raw = parts.join('||||');`. -/
def canonicalString (env : Env) (o : Options) : String :=
  joinSep "||||" (canonicalParts env o)

/-- gid.js line 393: `return await sha256Hex(raw);`.  The awaited
`crypto.subtle.digest` is the only rejection point: when the digest primitive
is unavailable the returned promise rejects, otherwise it fulfils with the
hex digest of the canonical string. -/
def generate (env : Env) (o : Options) : Except Unit String :=
  match env.digest with
  | none => .error ()
  | some d => .ok (sha256Hex d (canonicalString env o))

/-- The named collectors of gid.js, used to record which collector functions a
`generate` call invokes. -/
inductive Collector where
  | nav | screenInfo | intl | mediaQueries | connection | plugins
  | fonts | canvas | webgl | audio | mediaDevices | permissionStates | battery
deriving DecidableEq

/-- The collectors invoked by `generate(options)`, read off the control flow of
gid.js 363-389: the six direct collectors and `getCanvasFingerprint` /
`getWebGLFingerprint` are called unconditionally (`safe` invokes its thunk
synchronously); `detectFonts` is called iff `cfg.fonts` (line 373-375);
`getAudioFingerprint` is called iff `cfg.audio` (lines 382-389);
`getMediaDeviceInfo`, `getPermissionStates` and `getBatteryInfo` have no call
site in `generate` for any configuration. -/
def invokedCollectors (o : Options) : List Collector :=
  let cfg := mkConfig o
  [.nav, .screenInfo, .intl, .mediaQueries, .connection, .plugins]
  ++ (if cfg.fonts then [.fonts] else [])
  ++ [.canvas, .webgl]
  ++ (if cfg.audio then [.audio] else [])

/-! ### Concrete environments for witnesses and counterexamples -/

/-- A trivial but well-typed digest stand-in: 32 zero bytes. -/
def zeroDigest : List Nat → List Nat := fun _ => List.replicate 32 0

/-- A fully healthy reference environment: every collector body succeeds with
`""`, every font measurement yields width 0, digest available. -/
def env0 : Env where
  nav := .ok ""
  screenInfo := .ok ""
  intl := .ok ""
  mediaQueries := .ok ""
  connection := .ok ""
  plugins := .ok ""
  canvas := .ok ""
  webgl := .ok ""
  audioBody := .ok ""
  mediaDevices := .ok ""
  permissionStates := .ok ""
  battery := .ok ""
  fontsMeasure := fun _ => .ok 0
  digest := some zeroDigest

/-- The environment of the spec's worked example, with an arbitrary digest
primitive `d`: the navigator body yields `"UA1"`, the screen body
`"1920x1080"`, the canvas collector `"data:abc"`, the webgl collector `""`,
the audio body `""`; the remaining bodies yield `""`. -/
def envC6 (d : List Nat → List Nat) : Env :=
  { env0 with
    nav := .ok "UA1"
    screenInfo := .ok "1920x1080"
    canvas := .ok "data:abc"
    webgl := .ok ""
    audioBody := .ok ""
    digest := some d }

/-- An environment identical to `env0` except that the canvas collector body
throws. -/
def envCanvasThrows : Env := { env0 with canvas := .error () }

/-- An environment identical to `env0` except for the canvas collector's
output. -/
def envAltCanvas : Env := { env0 with canvas := .ok "CHANGED" }

/-- The canonical string actually produced for the worked-example environment
(spec §8 predicts a different one). -/
def expectedC6 : String :=
  "nav:UA1||||screen:1920x1080||||intl:||||mediaQueries:||||connection:||||plugins:||||fonts:[object Promise]||||canvas:[object Promise]||||webgl:[object Promise]||||audio:"

/-! ### General string and joining lemmas -/

theorem str_data_inj {a b : String} (h : a.data = b.data) : a = b :=
  String.ext h

theorem str_append_cancel_left {a b c : String} (h : a ++ b = a ++ c) : b = c := by
  apply str_data_inj
  have hd : a.data ++ b.data = a.data ++ c.data := by
    have := congrArg String.data h
    simpa [String.data_append] using this
  exact List.append_cancel_left hd

theorem str_append_cancel_right {a b c : String} (h : a ++ c = b ++ c) : a = b := by
  apply str_data_inj
  have hd : a.data ++ c.data = b.data ++ c.data := by
    have := congrArg String.data h
    simpa [String.data_append] using this
  exact List.append_cancel_right hd

theorem joinSep_cons (sep a : String) (l : List String) (h : l ≠ []) :
    joinSep sep (a :: l) = a ++ sep ++ joinSep sep l := by
  cases l with
  | nil => exact absurd rfl h
  | cons b t => rfl

/-- Joining two lists that agree except at one position yields equal strings
only when the differing elements are equal (the surrounding prefix and suffix
are fixed, so the differing element occupies the same byte range). -/
theorem joinSep_inj (sep : String) (l1 l2 : List String) (x y : String)
    (h : joinSep sep (l1 ++ x :: l2) = joinSep sep (l1 ++ y :: l2)) : x = y := by
  induction l1 with
  | nil =>
    simp only [List.nil_append] at h
    cases l2 with
    | nil => exact h
    | cons z zs =>
      rw [joinSep_cons sep x (z :: zs) (by simp), joinSep_cons sep y (z :: zs) (by simp)] at h
      exact str_append_cancel_right (str_append_cancel_right h)
  | cons a t ih =>
    simp only [List.cons_append] at h
    have hne : t ++ x :: l2 ≠ [] := by simp
    have hne2 : t ++ y :: l2 ≠ [] := by simp
    rw [joinSep_cons sep a _ hne, joinSep_cons sep a _ hne2] at h
    exact ih (str_append_cancel_left h)

/-! ### Hex rendering lemmas -/

theorem hexDigit_mem (n : Nat) : hexDigit n ∈ hexDigits := by
  unfold hexDigit List.getD
  cases h : hexDigits.get? n with
  | some c =>
    simp only [Option.getD_some]
    exact List.get?_mem h
  | none => simp only [Option.getD_none]; decide

theorem byteToHex_length (b : Nat) : (byteToHex b).length = 2 := rfl

theorem byteToHex_mem (b : Nat) (c : Char) (hc : c ∈ (byteToHex b).data) :
    c ∈ hexDigits := by
  have hdata : (byteToHex b).data = [hexDigit (b / 16 % 16), hexDigit (b % 16)] := rfl
  rw [hdata] at hc
  rcases List.mem_cons.mp hc with h | h
  · rw [h]; exact hexDigit_mem _
  · rcases List.mem_cons.mp h with h2 | h2
    · rw [h2]; exact hexDigit_mem _
    · exact absurd h2 (List.not_mem_nil c)

theorem hexOfBytes_length (bs : List Nat) : (hexOfBytes bs).length = 2 * bs.length := by
  induction bs with
  | nil => rfl
  | cons b t ih =>
    cases t with
    | nil => rfl
    | cons b2 t2 =>
      show ((byteToHex b ++ "" ++ _)).length = _
      rw [String.length_append, String.length_append, byteToHex_length]
      have h2 : joinSep "" (byteToHex b2 :: List.map byteToHex t2)
          = hexOfBytes (b2 :: t2) := rfl
      simp only [String.length_empty]
      rw [h2, ih]
      simp only [List.length_cons]
      ring

theorem hexOfBytes_mem (bs : List Nat) (c : Char)
    (hc : c ∈ (hexOfBytes bs).data) : c ∈ hexDigits := by
  induction bs with
  | nil =>
    have hnil : (hexOfBytes []).data = [] := rfl
    rw [hnil] at hc
    exact absurd hc (List.not_mem_nil c)
  | cons b t ih =>
    cases t with
    | nil => exact byteToHex_mem b c hc
    | cons b2 t2 =>
      have hd : (hexOfBytes (b :: b2 :: t2)).data
          = (byteToHex b).data ++ ("" : String).data
            ++ (joinSep "" (byteToHex b2 :: List.map byteToHex t2)).data := by
        show ((byteToHex b ++ "" ++ _)).data = _
        rw [String.data_append, String.data_append]
      rw [hd] at hc
      rcases List.mem_append.mp hc with h | h
      · rcases List.mem_append.mp h with h2 | h2
        · exact byteToHex_mem b c h2
        · have hnil : ("" : String).data = [] := rfl
          rw [hnil] at h2
          exact absurd h2 (List.not_mem_nil c)
      · exact ih h

/-! ### Configuration-shape lemmas -/

theorem canonicalParts_length (env : Env) (o : Options) :
    (canonicalParts env o).length
      = 8 + (cond (mkConfig o).fonts 1 0) + (cond (mkConfig o).audio 1 0) := by
  cases hf : (mkConfig o).fonts <;> cases ha : (mkConfig o).audio <;>
    simp [canonicalParts, hf, ha]


/-- The canonical string depends only on the seven directly-serialized body
outcomes: two environments agreeing on nav, screen, intl, mediaQueries,
connection, plugins and audio produce the same canonical string (the
fonts/canvas/webgl segments are the fixed promise-coercion text either way). -/
theorem canonicalString_congr (e1 e2 : Env) (o : Options)
    (h1 : e1.nav = e2.nav) (h2 : e1.screenInfo = e2.screenInfo)
    (h3 : e1.intl = e2.intl) (h4 : e1.mediaQueries = e2.mediaQueries)
    (h5 : e1.connection = e2.connection) (h6 : e1.plugins = e2.plugins)
    (h7 : e1.audioBody = e2.audioBody) :
    canonicalString e1 o = canonicalString e2 o := by
  simp only [canonicalString, canonicalParts, promiseToString, collectStableNavigator,
    collectStableScreen, collectIntl, collectMediaQueries, getConnectionInfo,
    getPluginsAndMimes, getAudioFingerprint, h1, h2, h3, h4, h5, h6, h7]

/-- Replacing the font-measurement capability never changes the canonical
string or the fingerprint. -/
theorem fontsMeasure_irrelevant (env : Env) (o : Options)
    (m : FontFamily → Except Unit Nat) :
    canonicalString { env with fontsMeasure := m } o = canonicalString env o
    ∧ generate { env with fontsMeasure := m } o = generate env o := by
  have hcs : canonicalString { env with fontsMeasure := m } o = canonicalString env o :=
    canonicalString_congr _ _ o rfl rfl rfl rfl rfl rfl rfl
  refine ⟨hcs, ?_⟩
  cases hd : env.digest with
  | none => simp [generate, hd]
  | some d =>
    simp only [generate, hd]
    rw [show canonicalString { env with fontsMeasure := m, digest := some d } o
          = canonicalString env o from
        canonicalString_congr _ _ o rfl rfl rfl rfl rfl rfl rfl]

/-! ## Claim theorems -/

/-- C1 counterexample: in the reference environment, turning the `fonts`
option off changes the number of probe segments of the canonical string
(9 instead of 10), contradicting the claim that disabling an optional
category never changes the segment count. -/
theorem c1_segment_count_cx :
    (canonicalParts env0 { fonts := some false }).length
      ≠ (canonicalParts env0 {}).length := by decide

/-- C1 amended: the canonical string has 8 fixed segments plus one for fonts
and one for audio exactly when those options are enabled — disabling fonts or
audio removes that segment entirely (count drops by one, no empty-valued
segment remains) — while toggling mediaDevices, permissions or battery leaves
the canonical string unchanged, those probes contributing no segment in any
configuration. -/
theorem c1_amended (env : Env) (o : Options) :
    (canonicalParts env o).length
      = 8 + (cond (mkConfig o).fonts 1 0) + (cond (mkConfig o).audio 1 0)
    ∧ (∀ b, canonicalString env { o with mediaDevices := some b }
        = canonicalString env o)
    ∧ (∀ b, canonicalString env { o with permissions := some b }
        = canonicalString env o)
    ∧ (∀ b, canonicalString env { o with battery := some b }
        = canonicalString env o)
    ∧ (canonicalParts env { o with fonts := some false }).length + 1
      = (canonicalParts env { o with fonts := some true }).length
    ∧ (canonicalParts env { o with audio := some false }).length + 1
      = (canonicalParts env { o with audio := some true }).length := by
  refine ⟨canonicalParts_length env o, fun b => rfl, fun b => rfl, fun b => rfl, ?_, ?_⟩
  · rw [canonicalParts_length, canonicalParts_length]
    simp only [mkConfig]
    cases o.audio.getD true <;> simp
  · rw [canonicalParts_length, canonicalParts_length]
    simp only [mkConfig]
    cases o.fonts.getD true <;> simp

/-- C2: for one fixed environment (all collector bodies and host capabilities
fixed) and one fixed configuration, two `generate` calls yield the identical
canonical string and the identical fingerprint — the pipeline reads nothing
but the environment and the options. -/
theorem c2_determinism (e1 e2 : Env) (o1 o2 : Options)
    (he : e1 = e2) (ho : o1 = o2) :
    canonicalString e1 o1 = canonicalString e2 o2
      ∧ generate e1 o1 = generate e2 o2 := by
  subst he; subst ho; exact ⟨rfl, rfl⟩

/-- C2 witness: two calls on the concrete reference environment agree. -/
theorem c2_determinism_witness :
    canonicalString env0 {} = canonicalString env0 {}
      ∧ generate env0 {} = generate env0 {} :=
  c2_determinism env0 env0 {} {} rfl rfl

/-- C4 counterexample: with the default options (`mediaDevices` defaulted
`true`), the device-kind-count collector is not invoked and its output does
not enter the canonical string, contradicting the claim that a `true`
`mediaDevices` option causes the collector to be invoked and included. -/
theorem c4_media_devices_cx :
    Collector.mediaDevices ∉ invokedCollectors {}
    ∧ canonicalString { env0 with mediaDevices := Except.ok "videoinput:2" } {}
      = canonicalString env0 {} :=
  ⟨by decide, rfl⟩

/-- C4 amended: the defaults are fonts/audio/mediaDevices/permissions `true`
and battery `false`; the fonts toggle controls invocation of the
font-detection collector (though its result is not serialized, the segment
being the promise-coercion text), the audio toggle controls invocation of the
audio collector and inclusion of its result, and the mediaDevices,
permissions and battery toggles have no effect: those collectors are never
invoked and contribute no segment. -/
theorem c4_amended (o : Options) :
    mkConfig {} = { fonts := true, audio := true, battery := false,
                    mediaDevices := true, permissions := true }
    ∧ (Collector.fonts ∈ invokedCollectors o ↔ (mkConfig o).fonts = true)
    ∧ (Collector.audio ∈ invokedCollectors o ↔ (mkConfig o).audio = true)
    ∧ Collector.mediaDevices ∉ invokedCollectors o
    ∧ Collector.permissionStates ∉ invokedCollectors o
    ∧ Collector.battery ∉ invokedCollectors o
    ∧ (∀ env, (mkConfig o).audio = true →
        ("audio:" ++ jsOrEmpty (getAudioFingerprint env)) ∈ canonicalParts env o) := by
  refine ⟨rfl, ?_, ?_, ?_, ?_, ?_, ?_⟩
  · cases hf : (mkConfig o).fonts <;> cases ha : (mkConfig o).audio <;>
      simp [invokedCollectors, hf, ha]
  · cases hf : (mkConfig o).fonts <;> cases ha : (mkConfig o).audio <;>
      simp [invokedCollectors, hf, ha]
  · cases hf : (mkConfig o).fonts <;> cases ha : (mkConfig o).audio <;>
      simp [invokedCollectors, hf, ha]
  · cases hf : (mkConfig o).fonts <;> cases ha : (mkConfig o).audio <;>
      simp [invokedCollectors, hf, ha]
  · cases hf : (mkConfig o).fonts <;> cases ha : (mkConfig o).audio <;>
      simp [invokedCollectors, hf, ha]
  · intro env ha
    simp [canonicalParts, ha]

/-- C4 witness: under the default configuration the font-detection collector
is invoked. -/
theorem c4_amended_witness : Collector.fonts ∈ invokedCollectors {} :=
  (c4_amended {}).2.1.mpr rfl

/-- C5 counterexample: asynchronous collectors whose configuration gate passes
are nonetheless never started: permissions (default `true`), battery (even
when explicitly enabled) and mediaDevices (even when explicitly enabled)
have no call site in `generate`. -/
theorem c5_async_start_cx :
    Collector.permissionStates ∉ invokedCollectors {}
    ∧ Collector.battery ∉ invokedCollectors { battery := some true }
    ∧ Collector.mediaDevices ∉ invokedCollectors { mediaDevices := some true } := by
  decide

/-- C5 amended: of the asynchronous collectors only the audio one is ever
started — exactly when its gate passes — and its settled result (not a pending
value) is what enters the audio segment; the mediaDevices, permissions and
battery collectors are never started regardless of their gates, and the fonts
segment serializes the string coercion of a promise object rather than an
awaited result. -/
theorem c5_amended (env : Env) (o : Options) :
    ((mkConfig o).audio = true → Collector.audio ∈ invokedCollectors o
      ∧ ("audio:" ++ jsOrEmpty (getAudioFingerprint env)) ∈ canonicalParts env o)
    ∧ ((mkConfig o).audio = false → Collector.audio ∉ invokedCollectors o)
    ∧ Collector.mediaDevices ∉ invokedCollectors o
    ∧ Collector.permissionStates ∉ invokedCollectors o
    ∧ Collector.battery ∉ invokedCollectors o
    ∧ ((mkConfig o).fonts = true →
        "fonts:[object Promise]" ∈ canonicalParts env o) := by
  refine ⟨?_, ?_, ?_, ?_, ?_, ?_⟩
  · intro ha
    constructor
    · cases hf : (mkConfig o).fonts <;> simp [invokedCollectors, hf, ha]
    · simp [canonicalParts, ha]
  · intro ha
    cases hf : (mkConfig o).fonts <;> simp [invokedCollectors, hf, ha]
  · cases hf : (mkConfig o).fonts <;> cases ha : (mkConfig o).audio <;>
      simp [invokedCollectors, hf, ha]
  · cases hf : (mkConfig o).fonts <;> cases ha : (mkConfig o).audio <;>
      simp [invokedCollectors, hf, ha]
  · cases hf : (mkConfig o).fonts <;> cases ha : (mkConfig o).audio <;>
      simp [invokedCollectors, hf, ha]
  · intro hf
    have hseg : ("fonts:" ++ promiseToString
        (safe (.value (some (detectFonts env.fontsMeasure))) "") : String)
        = "fonts:[object Promise]" := rfl
    simp [canonicalParts, hf, hseg]

/-- C5 witness: with audio enabled by default, the audio collector is started
and its settled value serialized. -/
theorem c5_amended_witness :
    Collector.audio ∈ invokedCollectors {}
    ∧ ("audio:" ++ jsOrEmpty (getAudioFingerprint env0)) ∈ canonicalParts env0 {} :=
  (c5_amended env0 {}).1 rfl

/-- C9: in an environment where every width measurement throws (the span has
been appended and `getBoundingClientRect` raises), `detectFonts` returns the
catch value `''` but the measurement span is left attached to the document:
`span.remove()` is skipped on the throwing path, contradicting the required
release-on-every-path behaviour. -/
theorem c9_span_leak_eval :
    detectFonts (fun _ => Except.error ()) = ""
    ∧ detectFontsSpanLeft (fun _ => Except.error ()) = true
    ∧ detectFontsSpanLeft env0.fontsMeasure = false :=
  ⟨rfl, rfl, rfl⟩

/-- C10: `safe` always returns a fulfilled promise: a synchronous throw, an
asynchronous rejection, or a nullish result (direct or resolved) yields the
fallback, and a non-nullish result (direct or resolved) yields that result. -/
theorem c10_safe_total (fn : SafeArg) (fb : String) :
    (∃ r, safe fn fb = Except.ok r)
    ∧ safe .thrown fb = Except.ok fb
    ∧ safe (.value none) fb = Except.ok fb
    ∧ safe (.promise (Except.error ())) fb = Except.ok fb
    ∧ safe (.promise (Except.ok none)) fb = Except.ok fb
    ∧ (∀ v, safe (.value (some v)) fb = Except.ok v)
    ∧ (∀ v, safe (.promise (Except.ok (some v))) fb = Except.ok v) := by
  refine ⟨?_, rfl, rfl, rfl, rfl, fun v => rfl, fun v => rfl⟩
  cases fn with
  | thrown => exact ⟨fb, rfl⟩
  | value v => exact ⟨v.getD fb, rfl⟩
  | promise p =>
    cases p with
    | ok v => exact ⟨v.getD fb, rfl⟩
    | error e => exact ⟨fb, rfl⟩

/-- C3 counterexample: when the canvas collector body throws, `generate`
still resolves, but the failed probe does not contribute an empty/fallback
value — the canvas segment is the promise-coercion text, and no empty
`canvas:` segment exists. -/
theorem c3_fallback_cx :
    "canvas:[object Promise]" ∈ canonicalParts envCanvasThrows {}
    ∧ "canvas:" ∉ canonicalParts envCanvasThrows {}
    ∧ generate envCanvasThrows {}
        = Except.ok (sha256Hex zeroDigest (canonicalString envCanvasThrows {})) :=
  ⟨by decide, by decide, rfl⟩

/-- C3 amended: whatever any collector body does, if the digest primitive is
available (and returns 32 bytes, as SHA-256 does) `generate` resolves with a
64-character lowercase-hex string; a failed directly-serialized probe (for
example nav, or audio when enabled) contributes an empty value, while the
fonts/canvas/webgl segments carry the fixed promise-coercion text in success
and failure alike; `generate` fails only when the digest primitive is
unavailable, and then it rejects without returning any identifier. -/
theorem c3_amended (env : Env) (o : Options) :
    (∀ d, env.digest = some d → (∀ bs, (d bs).length = 32) →
      ∃ s, generate env o = Except.ok s ∧ s.length = 64 ∧ ∀ c ∈ s.data, c ∈ hexDigits)
    ∧ (env.digest = none → generate env o = Except.error ())
    ∧ (env.nav = Except.error () → "nav:" ∈ canonicalParts env o)
    ∧ ((mkConfig o).audio = true → env.audioBody = Except.error () →
        "audio:" ∈ canonicalParts env o) := by
  refine ⟨?_, ?_, ?_, ?_⟩
  · intro d hd h32
    refine ⟨sha256Hex d (canonicalString env o), by simp [generate, hd], ?_, ?_⟩
    · show (hexOfBytes (d (utf8Bytes (canonicalString env o)))).length = 64
      rw [hexOfBytes_length, h32]
    · intro c hc
      exact hexOfBytes_mem _ c hc
  · intro hnone
    simp [generate, hnone]
  · intro hnav
    simp [canonicalParts, collectStableNavigator, hnav, catchEmpty]
  · intro ha haud
    simp [canonicalParts, ha, getAudioFingerprint, haud, catchEmpty, jsOrEmpty]

/-- C3 witness: on the reference environment the amended theorem yields a
64-character hex fingerprint. -/
theorem c3_amended_witness :
    ∃ s, generate env0 {} = Except.ok s ∧ s.length = 64 ∧ ∀ c ∈ s.data, c ∈ hexDigits :=
  (c3_amended env0 {}).1 zeroDigest rfl (fun bs => by simp [zeroDigest])

/-- C8: the fonts, canvas and webgl segments are built by string-concatenating
the promise returned by `safe`, so each equals the promise's fixed string
coercion, and changing what the corresponding collector returns never changes
the canonical string. -/
theorem c8_promise_coercion (env : Env) (o : Options) :
    ((mkConfig o).fonts = true → "fonts:[object Promise]" ∈ canonicalParts env o)
    ∧ "canvas:[object Promise]" ∈ canonicalParts env o
    ∧ "webgl:[object Promise]" ∈ canonicalParts env o
    ∧ (∀ v, canonicalString { env with canvas := v } o = canonicalString env o)
    ∧ (∀ v, canonicalString { env with webgl := v } o = canonicalString env o)
    ∧ (∀ m, canonicalString { env with fontsMeasure := m } o = canonicalString env o) := by
  refine ⟨?_, ?_, ?_, fun v => rfl, fun v => rfl,
    fun m => (fontsMeasure_irrelevant env o m).1⟩
  · intro hf
    have hseg : ("fonts:" ++ promiseToString
        (safe (.value (some (detectFonts env.fontsMeasure))) "") : String)
        = "fonts:[object Promise]" := rfl
    simp [canonicalParts, hf, hseg]
  · have hseg : ("canvas:" ++ promiseToString
        (safe (.value (some (getCanvasFingerprint env))) "") : String)
        = "canvas:[object Promise]" := rfl
    simp [canonicalParts, hseg]
  · have hseg : ("webgl:" ++ promiseToString
        (safe (.value (some (getWebGLFingerprint env))) "") : String)
        = "webgl:[object Promise]" := rfl
    simp [canonicalParts, hseg]

/-- C8 witness: in the reference environment with default options the fonts
segment is the promise-coercion text. -/
theorem c8_promise_coercion_witness :
    "fonts:[object Promise]" ∈ canonicalParts env0 {} :=
  (c8_promise_coercion env0 {}).1 rfl

/-- C6 counterexample: for the worked-example environment the string actually
hashed is not the spec's
`nav:UA1||screen:1920x1080||canvas:data:abc||webgl:||audio:`. -/
theorem c6_worked_example_cx :
    canonicalString (envC6 zeroDigest) {}
      ≠ "nav:UA1||screen:1920x1080||canvas:data:abc||webgl:||audio:" := by
  decide

set_option maxRecDepth 8192 in
/-- C6 amended: segments are `name:value` with `:` between name and value and
the record separator `||||` between probes, in the fixed order nav, screen,
intl, mediaQueries, connection, plugins, fonts, canvas, webgl, audio; for the
worked-example environment the string hashed is exactly `expectedC6` (the
fonts/canvas/webgl values being the promise-coercion text) and the fingerprint
is the digest of its UTF-8 bytes rendered as lowercase hex. -/
theorem c6_worked_example (d : List Nat → List Nat) :
    canonicalString (envC6 d) {} = expectedC6
    ∧ generate (envC6 d) {} = Except.ok (hexOfBytes (d (utf8Bytes expectedC6))) := by
  have hdig : canonicalString (envC6 d) {} = canonicalString (envC6 zeroDigest) {} := rfl
  have hc0 : canonicalString (envC6 zeroDigest) {} = expectedC6 := by decide
  have hc : canonicalString (envC6 d) {} = expectedC6 := hdig.trans hc0
  refine ⟨hc, ?_⟩
  have hg : generate (envC6 d) {} = Except.ok (sha256Hex d (canonicalString (envC6 d) {})) := rfl
  rw [hg, hc]
  rfl

/-- C7 counterexample: two environments that differ in exactly one collector
output — the canvas collector — produce the same canonical string and the
same fingerprint, contradicting the claim that any single-probe change
changes the fingerprint. -/
theorem c7_sensitivity_cx :
    getCanvasFingerprint envAltCanvas ≠ getCanvasFingerprint env0
    ∧ canonicalString envAltCanvas {} = canonicalString env0 {}
    ∧ generate envAltCanvas {} = generate env0 {} :=
  ⟨by decide, rfl, rfl⟩

/-- C7 amended: changing exactly one directly-serialized probe's output (nav,
screen, intl, mediaQueries, connection, plugins, or audio when enabled)
changes the canonical string — hence the fingerprint whenever the digest
separates the two strings — while changing only the fonts, canvas or webgl
collector output never changes the canonical string or the fingerprint. -/
theorem c7_amended (env : Env) (o : Options) (v : Except Unit String) :
    (catchEmpty v ≠ catchEmpty env.nav →
      canonicalString { env with nav := v } o ≠ canonicalString env o)
    ∧ (catchEmpty v ≠ catchEmpty env.screenInfo →
      canonicalString { env with screenInfo := v } o ≠ canonicalString env o)
    ∧ (catchEmpty v ≠ catchEmpty env.intl →
      canonicalString { env with intl := v } o ≠ canonicalString env o)
    ∧ (catchEmpty v ≠ catchEmpty env.mediaQueries →
      canonicalString { env with mediaQueries := v } o ≠ canonicalString env o)
    ∧ (catchEmpty v ≠ catchEmpty env.connection →
      canonicalString { env with connection := v } o ≠ canonicalString env o)
    ∧ (catchEmpty v ≠ catchEmpty env.plugins →
      canonicalString { env with plugins := v } o ≠ canonicalString env o)
    ∧ ((mkConfig o).audio = true →
      jsOrEmpty (catchEmpty v) ≠ jsOrEmpty (catchEmpty env.audioBody) →
      canonicalString { env with audioBody := v } o ≠ canonicalString env o)
    ∧ canonicalString { env with canvas := v } o = canonicalString env o
    ∧ generate { env with canvas := v } o = generate env o
    ∧ canonicalString { env with webgl := v } o = canonicalString env o
    ∧ generate { env with webgl := v } o = generate env o
    ∧ (∀ m, canonicalString { env with fontsMeasure := m } o = canonicalString env o
        ∧ generate { env with fontsMeasure := m } o = generate env o) := by
  refine ⟨?_, ?_, ?_, ?_, ?_, ?_, ?_, rfl, rfl, rfl, rfl,
    fun m => fontsMeasure_irrelevant env o m⟩
  · intro hne heq
    apply hne
    have h2 := joinSep_inj "||||" [] _ _ _ heq
    exact str_append_cancel_left h2
  · intro hne heq
    apply hne
    have h2 := joinSep_inj "||||" ["nav:" ++ collectStableNavigator env] _ _ _ heq
    exact str_append_cancel_left h2
  · intro hne heq
    apply hne
    have h2 := joinSep_inj "||||"
      ["nav:" ++ collectStableNavigator env,
       "screen:" ++ collectStableScreen env] _ _ _ heq
    exact str_append_cancel_left h2
  · intro hne heq
    apply hne
    have h2 := joinSep_inj "||||"
      ["nav:" ++ collectStableNavigator env, "screen:" ++ collectStableScreen env,
       "intl:" ++ collectIntl env] _ _ _ heq
    exact str_append_cancel_left h2
  · intro hne heq
    apply hne
    have h2 := joinSep_inj "||||"
      ["nav:" ++ collectStableNavigator env, "screen:" ++ collectStableScreen env,
       "intl:" ++ collectIntl env, "mediaQueries:" ++ collectMediaQueries env] _ _ _ heq
    exact str_append_cancel_left h2
  · intro hne heq
    apply hne
    have h2 := joinSep_inj "||||"
      ["nav:" ++ collectStableNavigator env, "screen:" ++ collectStableScreen env,
       "intl:" ++ collectIntl env, "mediaQueries:" ++ collectMediaQueries env,
       "connection:" ++ getConnectionInfo env] _ _ _ heq
    exact str_append_cancel_left h2
  · intro haud hne heq
    apply hne
    cases hf : (mkConfig o).fonts with
    | true =>
      simp only [canonicalString, canonicalParts, hf, haud, if_true] at heq
      have h2 := joinSep_inj "||||"
        ["nav:" ++ collectStableNavigator env, "screen:" ++ collectStableScreen env,
         "intl:" ++ collectIntl env, "mediaQueries:" ++ collectMediaQueries env,
         "connection:" ++ getConnectionInfo env, "plugins:" ++ getPluginsAndMimes env,
         "fonts:" ++ promiseToString (safe (.value (some (detectFonts env.fontsMeasure))) ""),
         "canvas:" ++ promiseToString (safe (.value (some (getCanvasFingerprint env))) ""),
         "webgl:" ++ promiseToString (safe (.value (some (getWebGLFingerprint env))) "")]
        [] _ _ heq
      exact str_append_cancel_left h2
    | false =>
      simp only [canonicalString, canonicalParts, hf, haud, if_true, if_false] at heq
      have h2 := joinSep_inj "||||"
        ["nav:" ++ collectStableNavigator env, "screen:" ++ collectStableScreen env,
         "intl:" ++ collectIntl env, "mediaQueries:" ++ collectMediaQueries env,
         "connection:" ++ getConnectionInfo env, "plugins:" ++ getPluginsAndMimes env,
         "canvas:" ++ promiseToString (safe (.value (some (getCanvasFingerprint env))) ""),
         "webgl:" ++ promiseToString (safe (.value (some (getWebGLFingerprint env))) "")]
        [] _ _ heq
      exact str_append_cancel_left h2

/-- C7 witness: changing the navigator output in the reference environment
changes the canonical string. -/
theorem c7_amended_witness :
    canonicalString { env0 with nav := Except.ok "UA2" } {} ≠ canonicalString env0 {} :=
  (c7_amended env0 {} (Except.ok "UA2")).1 (by decide)
